import Mathlib

/-!
# Verification of the LegalWiz CLM Graph-RAG validation layer

Shallow embedding of `src/routes/graph_rag_engine.py` (the
`GroundingValidator` and the pieces of `GraphRAGRetriever` it relies on)
and of the route handlers in `src/routes/recommendation_routes.py`,
`src/routes/risk_routes.py` and `src/routes/customization_routes.py`.

Conventions used throughout the embedding:
* Python `float` arithmetic is modelled over `ℚ`.
* A Python dict field read with `d.get(k)` is an `Option` field
  (`none` = key absent or the value is `None`); `d.get(k, default)` is
  `Option.getD`; a field read with `d[k]` is a plain field.
* A Python `set` of strings is modelled as a `Finset String`; the
  `sorted(list(...))` presentation of such a set in a result dict is
  embedded as the `Finset` itself.
* External I/O (Neo4j queries, Postgres reads, the LLM call) is modelled
  by passing the values the environment returns as explicit arguments;
  the Neo4j clause store is a predicate `String → Bool` telling whether a
  `Clause` node with the given id exists, and a raised exception in the
  LLM call is the `Except.error` case of its outcome.
* FastAPI `HTTPException` is an error value carrying status and detail;
  a structured detail body is embedded as its message text.
* `datetime.now()` is threaded through as an abstract `now : Nat`.
-/

namespace LegalWiz

/-! ## Clause-id existence checks (`GraphRAGRetriever`) -/

/-- Worker for `pyDedup`: walk the row list keeping the first occurrence
of each key, `seen` being the keys already inserted. -/
def pyDedupAux (seen : List String) : List String → List String
  | [] => []
  | x :: xs =>
    if x ∈ seen then pyDedupAux seen xs
    else x :: pyDedupAux (x :: seen) xs

/-- Python-dict key order: first occurrence of each element kept, later
duplicates dropped.  This is the key list produced by a dict comprehension
over rows that repeat ids (`{r["id"]: r["exists"] for r in result}` in
`GraphRAGRetriever.verify_clause_ids_batch`; duplicate rows carry the same
value, so only the keys collapse). -/
def pyDedup (l : List String) : List String := pyDedupAux [] l

/-- Embedding of `GraphRAGRetriever.verify_clause_ids_batch`: the Cypher
query `UNWIND $ids AS check_id OPTIONAL MATCH (c:Clause {id: check_id})
RETURN check_id AS id, c IS NOT NULL AS exists` yields one row per input
id, and the dict comprehension collapses duplicate ids; the resulting
dict is an association list keyed by the distinct input ids. -/
def verify_clause_ids_batch (graph : String → Bool) (clause_ids : List String) :
    List (String × Bool) :=
  (pyDedup clause_ids).map (fun i => (i, graph i))

/-- Result dict of `GroundingValidator.validate_clause_ids`; on the empty
input the keys `total_checked` and `validation_rate` are absent (`none`). -/
structure ClauseIdValidation where
  valid : Bool
  invalid_ids : List String
  valid_ids : List String
  total_checked : Option Nat
  validation_rate : Option ℚ
deriving DecidableEq, Repr

/-- Embedding of `GroundingValidator.validate_clause_ids`. -/
def validate_clause_ids (graph : String → Bool) (clause_ids : List String) :
    ClauseIdValidation :=
  if clause_ids.isEmpty then
    { valid := true, invalid_ids := [], valid_ids := [],
      total_checked := none, validation_rate := none }
  else
    let existence_map := verify_clause_ids_batch graph clause_ids
    let invalid := (existence_map.filter (fun p => !p.2)).map Prod.fst
    let valid := (existence_map.filter (fun p => p.2)).map Prod.fst
    { valid := invalid.length == 0,
      invalid_ids := invalid,
      valid_ids := valid,
      total_checked := some clause_ids.length,
      validation_rate := some ((valid.length : ℚ) / (clause_ids.length : ℚ)) }

/-! ## Placeholder extraction and validation -/

def lbrace : Char := Char.ofNat 123

def rbrace : Char := Char.ofNat 125

/-- Character class `[A-Z_0-9]` of the placeholder regex. -/
def isPlaceholderChar (c : Char) : Bool :=
  ('A' ≤ c && c ≤ 'Z') || c = '_' || ('0' ≤ c && c ≤ '9')

/-- One attempt of the regex `\{\{[A-Z_0-9]+\}\}` anchored at the head of
`l`: two opening braces, a maximal non-empty run of class characters, two
closing braces.  Backtracking the greedy `+` can never succeed with a
shorter run because the class excludes the brace characters, so only the
maximal run is tried. -/
def matchAt (l : List Char) : Option (List Char) :=
  match l with
  | c1 :: c2 :: rest =>
    if c1 = lbrace ∧ c2 = lbrace then
      let run := rest.takeWhile isPlaceholderChar
      let after := rest.dropWhile isPlaceholderChar
      match after with
      | a1 :: a2 :: _ =>
        if run ≠ [] ∧ a1 = rbrace ∧ a2 = rbrace then
          some (lbrace :: lbrace :: (run ++ [rbrace, rbrace]))
        else none
      | _ => none
    else none
  | _ => none

/-- Embedding of `re.findall(r'\{\{[A-Z_0-9]+\}\}', text)`: try a match at
every position, left to right.  `re.findall` resumes scanning at the end
of each match, but no match of this pattern can start strictly inside
another (a match begins with two opening braces, while every proper
suffix of a match begins with a class character or a closing brace), so
advancing one character at a time finds exactly the same matches. -/
def findPlaceholders (l : List Char) : List (List Char) :=
  match l with
  | [] => []
  | _ :: rest =>
    match matchAt l with
    | some m => m :: findPlaceholders rest
    | none => findPlaceholders rest

/-- Set of placeholder tokens of a text, as built by
`set(re.findall(r'\{\{[A-Z_0-9]+\}\}', text))`. -/
def extractPlaceholders (s : String) : Finset String :=
  ((findPlaceholders s.data).map (fun cs => String.mk cs)).toFinset

/-- Result dict of `GroundingValidator.validate_placeholders`. -/
structure PlaceholderValidation where
  valid : Bool
  original_placeholders : Finset String
  preserved_placeholders : Finset String
  missing_placeholders : Finset String
  new_placeholders : Finset String
  preservation_rate : ℚ
deriving DecidableEq

/-- Embedding of `GroundingValidator.validate_placeholders`. -/
def validate_placeholders (original_text customized_text : String) :
    PlaceholderValidation :=
  let original_placeholders := extractPlaceholders original_text
  let customized_placeholders := extractPlaceholders customized_text
  let missing := original_placeholders \ customized_placeholders
  let added := customized_placeholders \ original_placeholders
  { valid := missing.card == 0,
    original_placeholders := original_placeholders,
    preserved_placeholders := original_placeholders ∩ customized_placeholders,
    missing_placeholders := missing,
    new_placeholders := added,
    preservation_rate :=
      if original_placeholders = ∅ then 1
      else ((original_placeholders ∩ customized_placeholders).card : ℚ) /
        (original_placeholders.card : ℚ) }

/-! ## Recommendation validation -/

/-- One row of the `alternatives` list of
`GraphRAGRetriever.get_recommendation_context`. -/
structure Alternative where
  current_clause_id : String
  current_variant : String
  current_risk : ℚ
  clause_type : String
  recommended_clause_id : String
  recommended_variant : String
  recommended_risk : ℚ
  alternative_type : String
  reason : String
  benefit : String
  strength : String
deriving DecidableEq

/-- One row of the `requires` list of
`GraphRAGRetriever.get_recommendation_context` (only rows with
`is_missing = True` are kept by the retriever). -/
structure RequiresEntry where
  source_clause_type : String
  source_name : String
  required_clause_type : String
  required_name : String
  dependency_type : String
  is_critical : Bool
  reason : String
deriving DecidableEq

/-- One row of the `optional_gaps` list of
`GraphRAGRetriever.get_recommendation_context`. -/
structure OptionalGap where
  clause_type_id : String
  clause_type_name : String
  category : String
  importance_level : String
  description : String
deriving DecidableEq

/-- Return value of `GraphRAGRetriever.get_recommendation_context`. -/
structure RecGraphContext where
  alternatives : List Alternative
  requires : List RequiresEntry
  optional_gaps : List OptionalGap
deriving DecidableEq

/-- A recommendation dict: LLM output dicts and the dicts built by the
fallback paths of `get_recommendations` share this shape (fields the code
reads with `.get` are `Option`). -/
structure RecommendationItem where
  type : String
  clause_type : Option String
  current_clause_id : Option String
  recommended_clause_id : Option String
  title : String
  reason : String
  benefit : String
  priority : String
  recommendation_strength : Option String
deriving DecidableEq

/-- Grounding test applied to each recommendation inside
`GroundingValidator.validate_recommendations`:
`rec_id in graph_alt_ids or rec_type in graph_req_types`, where
`rec_id = rec.get("recommended_clause_id", "")` and
`rec_type = rec.get("clause_type", "")`. -/
def recGrounded (graph_context : RecGraphContext) (r : RecommendationItem) : Bool :=
  let graph_alt_ids :=
    (graph_context.alternatives.map (fun a => a.recommended_clause_id)).toFinset
  let graph_req_types :=
    (graph_context.requires.map (fun q => q.required_clause_type)).toFinset
  decide (r.recommended_clause_id.getD "" ∈ graph_alt_ids) ||
    decide (r.clause_type.getD "" ∈ graph_req_types)

/-- Result dict of `GroundingValidator.validate_recommendations`. -/
structure RecValidation where
  valid : Bool
  id_validation : ClauseIdValidation
  grounded_count : Nat
  ungrounded_count : Nat
  ungrounded_recommendations : List RecommendationItem
  grounding_rate : ℚ
deriving DecidableEq

/-- Embedding of `GroundingValidator.validate_recommendations`.  The list
comprehension keeps only truthy `recommended_clause_id` values (present
and non-empty). -/
def validate_recommendations (graph : String → Bool)
    (recommendations : List RecommendationItem) (graph_context : RecGraphContext) :
    RecValidation :=
  let rec_clause_ids := recommendations.filterMap (fun r =>
    match r.recommended_clause_id with
    | some s => if s = "" then none else some s
    | none => none)
  let id_validation :=
    if rec_clause_ids.isEmpty then
      { valid := true, invalid_ids := [], valid_ids := [],
        total_checked := none, validation_rate := none }
    else validate_clause_ids graph rec_clause_ids
  let grounded_recs := recommendations.filter (fun r => recGrounded graph_context r)
  let ungrounded_recs :=
    recommendations.filter (fun r => !(recGrounded graph_context r))
  { valid := id_validation.valid && (ungrounded_recs.length == 0),
    id_validation := id_validation,
    grounded_count := grounded_recs.length,
    ungrounded_count := ungrounded_recs.length,
    ungrounded_recommendations := ungrounded_recs,
    grounding_rate :=
      if recommendations.isEmpty then 1
      else (grounded_recs.length : ℚ) / (recommendations.length : ℚ) }

/-! ## Risk-score validation -/

/-- One row of the `clause_risks` list of
`GraphRAGRetriever.get_risk_context`.  `importance_level` comes from an
`OPTIONAL MATCH`, so it can be null (`none`); null `risk_level` would
crash the score computation, so well-formed rows carry a number. -/
structure GraphClauseRisk where
  clause_id : String
  clause_type : Option String
  variant : String
  risk_level : ℚ
  importance_level : Option String
  category : Option String
  clause_type_name : Option String
deriving DecidableEq

/-- A clause-risk dict as produced by the LLM (and as returned in the
`clause_risks` field of the risk-analysis response). -/
structure LLMClauseRisk where
  clause_id : Option String
  clause_type : Option String
  risk_level : Option ℚ
  explanation : Option String
  mitigation : Option String
deriving DecidableEq

/-- Lookup in `graph_risk_map = {r["clause_id"]: r["risk_level"] for r in
graph_risks}`: a dict comprehension lets the last entry for a key win,
and `.get` on a key that is `None` or unknown returns `None`. -/
def graphRiskLookup (graph_risks : List GraphClauseRisk) (cid : Option String) :
    Option ℚ :=
  match cid with
  | none => none
  | some c =>
    ((graph_risks.filter (fun g => g.clause_id == c)).getLast?).map
      (fun g => g.risk_level)

/-- Body of the force-correction loop in `get_risk_analysis`: a clause
risk whose id is a key of the graph risk map gets its `risk_level`
overwritten with the graph value. -/
def correctRisk (graph_risks : List GraphClauseRisk) (e : LLMClauseRisk) :
    LLMClauseRisk :=
  match graphRiskLookup graph_risks e.clause_id with
  | some graph_level => { e with risk_level := some graph_level }
  | none => e

/-- One entry of the `mismatches` list of
`GroundingValidator.validate_risk_scores`. -/
structure RiskMismatch where
  clause_id : Option String
  llm_risk : Option ℚ
  graph_risk : ℚ
deriving DecidableEq

/-- Result dict of `GroundingValidator.validate_risk_scores`. -/
structure RiskScoreValidation where
  valid : Bool
  mismatches : List RiskMismatch
  checked_count : Nat
  accuracy_rate : ℚ
deriving DecidableEq

/-- Embedding of `GroundingValidator.validate_risk_scores`: an LLM entry
is a mismatch when the graph map has its clause id (`graph_level is not
None`) and the levels differ. -/
def validate_risk_scores (llm_risks : List LLMClauseRisk)
    (graph_risks : List GraphClauseRisk) : RiskScoreValidation :=
  let mismatches := llm_risks.filterMap (fun e =>
    match graphRiskLookup graph_risks e.clause_id with
    | some graph_level =>
      if e.risk_level = some graph_level then none
      else some { clause_id := e.clause_id, llm_risk := e.risk_level,
                  graph_risk := graph_level }
    | none => none)
  { valid := mismatches.length == 0,
    mismatches := mismatches,
    checked_count := llm_risks.length,
    accuracy_rate :=
      if llm_risks.isEmpty then 1
      else ((llm_risks.length : ℚ) - (mismatches.length : ℚ)) /
        (llm_risks.length : ℚ) }

/-! ## Citation validation -/

/-- A citation dict produced by the chatbot LLM (`clause_id` read with
`.get`). -/
structure Citation where
  clause_id : Option String
  quote : String
deriving DecidableEq

/-- One row of the clause context handed to `validate_citations`
(`clause_id` is indexed directly, hence present). -/
structure QAClause where
  clause_id : String
  raw_text : String
deriving DecidableEq

/-- Result dict of `GroundingValidator.validate_citations`. -/
structure CitationValidation where
  valid : Bool
  valid_citations : List Citation
  invalid_citations : List Citation
  citation_rate : ℚ
deriving DecidableEq

/-- Membership test `citation.get("clause_id") in available_ids` used by
`validate_citations` (`None` is never in a set of string ids). -/
def citationGrounded (clause_data : List QAClause) (c : Citation) : Bool :=
  let available_ids := (clause_data.map (fun d => d.clause_id)).toFinset
  match c.clause_id with
  | some s => decide (s ∈ available_ids)
  | none => false

/-- Embedding of `GroundingValidator.validate_citations`; the single loop
appending to one of two lists is the pair of order-preserving filters. -/
def validate_citations (citations : List Citation) (clause_data : List QAClause) :
    CitationValidation :=
  let valid_citations := citations.filter (fun c => citationGrounded clause_data c)
  let invalid_citations :=
    citations.filter (fun c => !(citationGrounded clause_data c))
  { valid := invalid_citations.length == 0,
    valid_citations := valid_citations,
    invalid_citations := invalid_citations,
    citation_rate :=
      if citations.isEmpty then 1
      else (valid_citations.length : ℚ) / (citations.length : ℚ) }

/-! ## Shared route-level types -/

/-- FastAPI `HTTPException`, reduced to status code and detail text. -/
structure HTTPError where
  status : Nat
  detail : String
deriving DecidableEq

/-- Row of `GraphRAGRetriever.get_contract_info`. -/
structure ContractInfo where
  id : String
  title : String
  contract_type : String
  jurisdiction : String
  status : String
  description : String
deriving DecidableEq

/-- Row of `GraphRAGRetriever.get_active_clause_ids`. -/
structure ActiveClause where
  clause_id : String
  clause_type : String
  variant : String
deriving DecidableEq

/-! ## GET recommendations endpoint (`recommendation_routes.py`) -/

/-- The `grounding_validation` dict of a recommendations response; the
three code paths populate different key sets, absent keys are `none`. -/
structure GroundingInfo where
  valid : Bool
  grounding_rate : ℚ
  llm_fallback : Option Bool
  filtered_hallucinations : Option Nat
deriving DecidableEq

/-- Response body of `get_recommendations`. -/
structure RecommendationResponse where
  contract_id : String
  recommendations : List RecommendationItem
  summary : String
  total_recommendations : Nat
  grounding_validation : GroundingInfo
  generated_at : Nat
deriving DecidableEq

/-- Raw `variant_upgrade` recommendation dict built from one graph
alternative by the fallback paths of `get_recommendations`.  The two
fallback branches differ only in reading `alt["strength"]` versus
`alt.get("strength")`; retriever rows always carry `strength`, so both
build this dict. -/
def altToRawRec (alt : Alternative) : RecommendationItem :=
  { type := "variant_upgrade",
    clause_type := some alt.clause_type,
    current_clause_id := some alt.current_clause_id,
    recommended_clause_id := some alt.recommended_clause_id,
    title := "Upgrade " ++ alt.clause_type ++ " to " ++ alt.recommended_variant,
    reason := alt.reason,
    benefit := alt.benefit,
    priority := if alt.strength = "high" then "high" else "medium",
    recommendation_strength := some alt.strength }

/-- Raw `missing_clause` recommendation dict built from one missing
requirement by the fallback paths of `get_recommendations`. -/
def reqToRawRec (req : RequiresEntry) : RecommendationItem :=
  { type := "missing_clause",
    clause_type := some req.required_clause_type,
    current_clause_id := none,
    recommended_clause_id := none,
    title := "Missing required: " ++ req.required_name,
    reason := req.reason,
    benefit := "Required by " ++ req.source_name ++ " (" ++ req.dependency_type ++ ")",
    priority := if req.is_critical then "high" else "medium",
    recommendation_strength := some (if req.is_critical then "high" else "medium") }

/-- Parsed JSON the LLM returns for the recommendations prompt; the route
reads `recommendations` (default `[]`) and `summary` (default `""`),
embedded as plain fields. -/
structure LLMRecOutput where
  recommendations : List RecommendationItem
  summary : String
deriving DecidableEq

/-- Embedding of the `GET /{contract_id}/recommendations` handler. -/
def get_recommendations (graph : String → Bool) (contract : Option ContractInfo)
    (active_clauses : List ActiveClause) (graph_context : RecGraphContext)
    (llm_configured : Bool) (llm_outcome : Except String LLMRecOutput)
    (contract_id : String) (now : Nat) :
    Except HTTPError RecommendationResponse :=
  match contract with
  | none => .error { status := 404, detail := "Contract not found" }
  | some _ =>
  if active_clauses.isEmpty then
    .error { status := 400,
             detail := "No active clauses found. Complete Step 3 first." }
  else if graph_context.alternatives.isEmpty && graph_context.requires.isEmpty &&
      graph_context.optional_gaps.isEmpty then
    .ok { contract_id := contract_id, recommendations := [],
          summary := "Your contract configuration looks complete — no recommendations at this time.",
          total_recommendations := 0,
          grounding_validation :=
            { valid := true, grounding_rate := 1, llm_fallback := none,
              filtered_hallucinations := none },
          generated_at := now }
  else if !llm_configured then
    let raw_recs := graph_context.alternatives.map altToRawRec ++
      graph_context.requires.map reqToRawRec
    .ok { contract_id := contract_id, recommendations := raw_recs,
          summary := "Recommendations from knowledge graph (LLM not configured for detailed analysis).",
          total_recommendations := raw_recs.length,
          grounding_validation :=
            { valid := true, grounding_rate := 1, llm_fallback := none,
              filtered_hallucinations := none },
          generated_at := now }
  else
    match llm_outcome with
    | .error e =>
      let raw_recs := graph_context.alternatives.map altToRawRec ++
        graph_context.requires.map reqToRawRec
      .ok { contract_id := contract_id, recommendations := raw_recs,
            summary := "Recommendations from knowledge graph (LLM unavailable: " ++
              e.take 100 ++ ").",
            total_recommendations := raw_recs.length,
            grounding_validation :=
              { valid := true, grounding_rate := 1, llm_fallback := some true,
                filtered_hallucinations := none },
            generated_at := now }
    | .ok llm_response =>
      let grounding :=
        validate_recommendations graph llm_response.recommendations graph_context
      let recommendations :=
        if !grounding.valid then
          llm_response.recommendations.filter
            (fun r => !(grounding.ungrounded_recommendations.contains r))
        else llm_response.recommendations
      .ok { contract_id := contract_id, recommendations := recommendations,
            summary := llm_response.summary,
            total_recommendations := recommendations.length,
            grounding_validation :=
              { valid := grounding.valid,
                grounding_rate := grounding.grounding_rate,
                llm_fallback := none,
                filtered_hallucinations := some grounding.ungrounded_count },
            generated_at := now }

/-! ## GET risk-analysis endpoint (`risk_routes.py`) -/

/-- One row of the `conflicts` list of `GraphRAGRetriever.get_risk_context`. -/
structure GraphConflict where
  clause_a_id : String
  clause_a_type : String
  clause_a_variant : String
  clause_b_id : String
  clause_b_type : String
  clause_b_variant : String
  severity : String
  reason : String
  conflict_type : String
  resolution_advice : String
deriving DecidableEq

/-- One row of the `missing_dependencies` list of
`GraphRAGRetriever.get_risk_context`. -/
structure MissingDep where
  source_type : String
  source_name : String
  missing_type : String
  missing_name : String
  dependency_type : String
  is_critical : Bool
  reason : String
deriving DecidableEq

/-- One row of the `gaps` list of `GraphRAGRetriever.get_risk_context`;
`description` comes from a relationship property that can be null. -/
structure TemplateGap where
  clause_type_id : String
  clause_type_name : String
  importance_level : String
  description : Option String
deriving DecidableEq

/-- Return value of `GraphRAGRetriever.get_risk_context` (the
`contract_type_info` dict only feeds the LLM prompt and is reduced to its
description). -/
structure RiskGraphContext where
  contract_type_description : String
  clause_risks : List GraphClauseRisk
  conflicts : List GraphConflict
  missing_dependencies : List MissingDep
  gaps : List TemplateGap
deriving DecidableEq

/-- Lookup in the `importance_weights` dict of `_compute_risk_score`,
with its default `1.0` for unknown keys. -/
def importanceWeight (importance : String) : ℚ :=
  if importance = "Critical" then 3
  else if importance = "High" then 2
  else if importance = "Medium" then 3/2
  else if importance = "Low" then 1
  else 1

/-- Lookup in the `severity_penalty` dict of `_compute_risk_score`, with
its default `0.1` for unknown keys. -/
def severityPenalty (severity : String) : ℚ :=
  if severity = "high" then 1/2
  else if severity = "medium" then 3/10
  else if severity = "low" then 1/10
  else 1/10

/-- The weight `_compute_risk_score` gives one clause-risk row: retriever
rows always carry the `importance_level` key, so `cr.get(...)`'s
`"Medium"` default is unreachable, but a null value reaches the weight
dict as a key that is not present and falls back to `1.0`. -/
def clauseWeight (cr : GraphClauseRisk) : ℚ :=
  match cr.importance_level with
  | some s => importanceWeight s
  | none => 1

/-- Rounding of Python `round(x, 1)` over `ℚ`: ties go to the even
integer (banker's rounding). -/
def roundHalfEven (q : ℚ) : ℤ :=
  let f := ⌊q⌋
  let frac := q - f
  if frac < 1/2 then f
  else if 1/2 < frac then f + 1
  else if Even f then f else f + 1

/-- Python `round(q, 1)` over `ℚ`. -/
def round1 (q : ℚ) : ℚ := ((roundHalfEven (10 * q) : ℤ) : ℚ) / 10

/-- Embedding of `_compute_risk_score` in `risk_routes.py`: the
accumulation loop over clause risks, the conflict-penalty sum, rounding
to one decimal, capping at `10.0`. -/
def compute_risk_score (clause_risks : List GraphClauseRisk)
    (conflicts : List GraphConflict) : ℚ :=
  if clause_risks.isEmpty then 0
  else
    let acc := clause_risks.foldl
      (fun (p : ℚ × ℚ) cr =>
        (p.1 + cr.risk_level * clauseWeight cr, p.2 + clauseWeight cr))
      (0, 0)
    let base_score := if 0 < acc.2 then acc.1 / acc.2 else 5
    let conflict_penalty :=
      (conflicts.map (fun c => severityPenalty c.severity)).sum
    min 10 (round1 (base_score + conflict_penalty))

/-- Embedding of `_get_risk_label` in `risk_routes.py`. -/
def get_risk_label (score : ℚ) : String :=
  if score ≤ 7/2 then "Low"
  else if score ≤ 11/2 then "Medium"
  else if score ≤ 15/2 then "High"
  else "Critical"

/-- A conflict dict of the risk-analysis response body. -/
structure ConflictOut where
  clause_a : String
  clause_b : String
  severity : String
  description : String
  resolution : String
deriving DecidableEq

/-- A gap dict of the risk-analysis response body. -/
structure GapOut where
  missing_clause_type : String
  reason : String
  impact : Option String
  is_critical : Bool
deriving DecidableEq

/-- The `validation` dict of the risk-analysis response; the LLM path and
the raw path populate different key sets, absent keys are `none`. -/
structure RiskValidationInfo where
  risk_scores_from_graph : Bool
  overall_score_formula : Option String
  risk_score_accuracy : Option ℚ
  scores_corrected : Option Nat
  llm_used : Option Bool
  note : Option String
deriving DecidableEq

/-- Response body of `get_risk_analysis`. -/
structure RiskAnalysisResponse where
  contract_id : String
  overall_risk_score : ℚ
  overall_risk_label : String
  summary : String
  clause_risks : List LLMClauseRisk
  conflicts : List ConflictOut
  gaps : List GapOut
  action_items : List String
  validation : RiskValidationInfo
  generated_at : Nat
deriving DecidableEq

/-- Parsed JSON the LLM returns for the risk prompt.  It carries its own
`overall_risk_score`, which the route never reads. -/
structure LLMRiskOutput where
  summary : String
  clause_risks : List LLMClauseRisk
  conflicts : List ConflictOut
  gaps : List GapOut
  action_items : List String
  overall_risk_score : ℚ
deriving DecidableEq

/-- Embedding of `_build_raw_risk_response` in `risk_routes.py`. -/
def build_raw_risk_response (contract_id : String) (risk_score : ℚ)
    (risk_label : String) (risk_ctx : RiskGraphContext) (now : Nat) :
    RiskAnalysisResponse :=
  let clause_risks : List LLMClauseRisk := risk_ctx.clause_risks.map (fun r =>
    { clause_id := some r.clause_id,
      clause_type := r.clause_type,
      risk_level := some r.risk_level,
      explanation := some ("Risk level " ++ toString r.risk_level ++ "/10 (" ++
        r.variant ++ " variant)"),
      mitigation :=
        if (7 : ℚ) ≤ r.risk_level then
          some "Consider switching to a lower-risk variant"
        else none })
  let conflicts : List ConflictOut := risk_ctx.conflicts.map (fun c =>
    { clause_a := c.clause_a_id, clause_b := c.clause_b_id,
      severity := c.severity, description := c.reason,
      resolution := c.resolution_advice })
  let gaps : List GapOut :=
    risk_ctx.missing_dependencies.map (fun g =>
      { missing_clause_type := g.missing_type, reason := g.reason,
        impact := some ("Required by " ++ g.source_name),
        is_critical := g.is_critical }) ++
    risk_ctx.gaps.map (fun g =>
      { missing_clause_type := g.clause_type_id,
        reason := "Mandatory clause type for this contract template",
        impact := some (g.description.getD ""), is_critical := true })
  let critical_gaps := gaps.filter (fun g => g.is_critical)
  let high_risk := clause_risks.filter (fun r => decide (7 ≤ r.risk_level.getD 0))
  let action_items :=
    (if !conflicts.isEmpty then
      ["Resolve " ++ toString conflicts.length ++ " clause conflict(s)"]
     else []) ++
    (if !gaps.isEmpty && !critical_gaps.isEmpty then
      ["Add " ++ toString critical_gaps.length ++ " missing critical clause type(s)"]
     else []) ++
    (if !high_risk.isEmpty then
      ["Review " ++ toString high_risk.length ++ " high-risk clause(s)"]
     else [])
  { contract_id := contract_id,
    overall_risk_score := risk_score,
    overall_risk_label := risk_label,
    summary := "Contract risk score: " ++ toString risk_score ++ "/10 (" ++
      risk_label ++ "). " ++ toString conflicts.length ++ " conflicts, " ++
      toString gaps.length ++ " gaps detected.",
    clause_risks := clause_risks,
    conflicts := conflicts,
    gaps := gaps,
    action_items := action_items,
    validation :=
      { risk_scores_from_graph := true, overall_score_formula := none,
        risk_score_accuracy := none, scores_corrected := none,
        llm_used := some false,
        note := some "LLM not configured — showing raw graph analysis" },
    generated_at := now }

/-- Embedding of the `GET /{contract_id}/risk-analysis` handler. -/
def get_risk_analysis (contract : Option ContractInfo)
    (active_clauses : List ActiveClause) (risk_ctx : RiskGraphContext)
    (llm_configured : Bool) (llm_outcome : Except String LLMRiskOutput)
    (contract_id : String) (now : Nat) :
    Except HTTPError RiskAnalysisResponse :=
  match contract with
  | none => .error { status := 404, detail := "Contract not found" }
  | some _ =>
  if active_clauses.isEmpty then
    .error { status := 400, detail := "No active clauses found" }
  else
    let risk_score := compute_risk_score risk_ctx.clause_risks risk_ctx.conflicts
    let risk_label := get_risk_label risk_score
    if !llm_configured then
      .ok (build_raw_risk_response contract_id risk_score risk_label risk_ctx now)
    else
      match llm_outcome with
      | .error _ =>
        .ok (build_raw_risk_response contract_id risk_score risk_label risk_ctx now)
      | .ok llm_response =>
        let llm_clause_risks := llm_response.clause_risks
        let risk_validation :=
          validate_risk_scores llm_clause_risks risk_ctx.clause_risks
        let corrected := llm_clause_risks.map (correctRisk risk_ctx.clause_risks)
        .ok { contract_id := contract_id,
              overall_risk_score := risk_score,
              overall_risk_label := risk_label,
              summary := llm_response.summary,
              clause_risks := corrected,
              conflicts := llm_response.conflicts,
              gaps := llm_response.gaps,
              action_items := llm_response.action_items,
              validation :=
                { risk_scores_from_graph := true,
                  overall_score_formula := some "weighted average + conflict penalty",
                  risk_score_accuracy := some risk_validation.accuracy_rate,
                  scores_corrected := some risk_validation.mismatches.length,
                  llm_used := none, note := none },
              generated_at := now }

/-! ## POST customize endpoint (`customization_routes.py`) -/

/-- The `contract_clauses` row the route loads from Postgres (reduced to
the fields the handler reads). -/
structure ClauseRecord where
  clause_id : String
  overridden_text : Option String
deriving DecidableEq

/-- The `clause` dict of `GraphRAGRetriever.get_customization_context`. -/
structure CustClauseData where
  clause_id : String
  raw_text : String
  variant : String
  risk_level : ℚ
  jurisdiction : String
  clause_type : String
  clause_type_id : String
  clause_type_name : String
  category : String
  importance_level : String
deriving DecidableEq

/-- One variant row of `GraphRAGRetriever.get_customization_context`. -/
structure VariantData where
  clause_id : String
  variant : String
  risk_level : ℚ
  raw_text : String
deriving DecidableEq

/-- One parameter row of `GraphRAGRetriever.get_customization_context`. -/
structure ParamData where
  parameter_id : String
  parameter_name : String
  data_type : String
  is_required : Bool
deriving DecidableEq

/-- Return value of `GraphRAGRetriever.get_customization_context`. -/
structure CustomizationContext where
  clause : CustClauseData
  all_variants : List VariantData
  parameters : List ParamData
deriving DecidableEq

/-- Parsed JSON the LLM returns for the customization prompt (all fields
read with `.get`). -/
structure CustLLMOutput where
  customized_text : Option String
  changes_summary : Option String
  risk_impact : Option String
  risk_explanation : Option String
  legal_notes : Option String
deriving DecidableEq

/-- Text the customization endpoint treats as original:
`clause_record.get("overridden_text") or clause_data["raw_text"]` —
Python truthiness, so both a missing and an empty override fall back to
the graph text. -/
def effectiveOriginalText (record : ClauseRecord) (clause_data : CustClauseData) :
    String :=
  match record.overridden_text with
  | some t => if t = "" then clause_data.raw_text else t
  | none => clause_data.raw_text

/-- The `validation` dict of the customization response. -/
structure CustValidationInfo where
  placeholders_valid : Bool
  preservation_rate : ℚ
  all_placeholders : Finset String
deriving DecidableEq

/-- Response body of `customize_clause`. -/
structure CustomizationResult where
  clause_id : String
  clause_type : String
  original_text : String
  customized_text : String
  changes_summary : String
  risk_impact : String
  risk_explanation : String
  preserved_placeholders : Finset String
  legal_notes : Option String
  validation : CustValidationInfo
deriving DecidableEq

/-- Embedding of the `POST /{contract_id}/clauses/{clause_db_id}/customize`
handler.  `clause_record.get("overridden_text") or clause_data["raw_text"]`
is Python truthiness: both a missing and an empty override fall back to
the graph text. -/
def customize_clause (clause_record : Option ClauseRecord)
    (graph_context : Option CustomizationContext) (llm_configured : Bool)
    (llm_outcome : Except String CustLLMOutput) :
    Except HTTPError CustomizationResult :=
  match clause_record with
  | none => .error { status := 404, detail := "Clause not found in contract" }
  | some record =>
  match graph_context with
  | none =>
    .error { status := 404,
             detail := "Clause '" ++ record.clause_id ++
               "' not found in knowledge graph" }
  | some ctx =>
    let clause_data := ctx.clause
    let original_text := effectiveOriginalText record clause_data
    if !llm_configured then
      .error { status := 503,
               detail := "LLM not configured. Set LLM_API_KEY in .env to enable AI customization." }
    else
      match llm_outcome with
      | .error e => .error { status := 500, detail := "LLM generation failed: " ++ e }
      | .ok llm_response =>
        let customized_text := llm_response.customized_text.getD ""
        let placeholder_check := validate_placeholders original_text customized_text
        if !placeholder_check.valid then
          .error { status := 422,
                   detail := "Customization failed validation: missing placeholders" }
        else
          .ok { clause_id := record.clause_id,
                clause_type := clause_data.clause_type,
                original_text := original_text,
                customized_text := customized_text,
                changes_summary := llm_response.changes_summary.getD "",
                risk_impact := llm_response.risk_impact.getD "same",
                risk_explanation := llm_response.risk_explanation.getD "",
                preserved_placeholders := placeholder_check.preserved_placeholders,
                legal_notes := llm_response.legal_notes,
                validation :=
                  { placeholders_valid := placeholder_check.valid,
                    preservation_rate := placeholder_check.preservation_rate,
                    all_placeholders := placeholder_check.original_placeholders } }

/-! ## Concrete sample data (used to instantiate theorems with hypotheses) -/

def sampleContract : ContractInfo :=
  { id := "C-1", title := "NDA", contract_type := "nda", jurisdiction := "IN",
    status := "draft", description := "" }

def sampleActive : ActiveClause :=
  { clause_id := "c1", clause_type := "termination", variant := "Strict" }

def sampleAlternative : Alternative :=
  { current_clause_id := "c1", current_variant := "Strict", current_risk := 8,
    clause_type := "termination", recommended_clause_id := "c2",
    recommended_variant := "Moderate", recommended_risk := 4,
    alternative_type := "safer", reason := "r", benefit := "b",
    strength := "high" }

def sampleRecCtx : RecGraphContext :=
  { alternatives := [sampleAlternative], requires := [], optional_gaps := [] }

def emptyRiskCtx : RiskGraphContext :=
  { contract_type_description := "", clause_risks := [], conflicts := [],
    missing_dependencies := [], gaps := [] }

def sampleGraphRisk : GraphClauseRisk :=
  { clause_id := "c1", clause_type := some "termination", variant := "Strict",
    risk_level := 8, importance_level := some "High", category := none,
    clause_type_name := none }

def sampleRiskCtx : RiskGraphContext :=
  { contract_type_description := "", clause_risks := [sampleGraphRisk],
    conflicts := [], missing_dependencies := [], gaps := [] }

def sampleLLMRisk : LLMClauseRisk :=
  { clause_id := some "c1", clause_type := some "termination",
    risk_level := some 3, explanation := none, mitigation := none }

def sampleLLMRiskOutput : LLMRiskOutput :=
  { summary := "s", clause_risks := [sampleLLMRisk], conflicts := [], gaps := [],
    action_items := [], overall_risk_score := 2 }

def sampleUngroundedRec : RecommendationItem :=
  { type := "variant_upgrade", clause_type := some "zzz",
    current_clause_id := none, recommended_clause_id := some "nope",
    title := "t", reason := "r", benefit := "b", priority := "high",
    recommendation_strength := none }

def sampleLLMRecOutput : LLMRecOutput :=
  { recommendations := [sampleUngroundedRec], summary := "s" }

/-! ## General lemmas -/

theorem mem_pyDedupAux (a : String) :
    ∀ (l seen : List String), a ∈ pyDedupAux seen l ↔ a ∈ l ∧ a ∉ seen := by
  intro l
  induction l with
  | nil => intro seen; simp [pyDedupAux]
  | cons x xs ih =>
    intro seen
    rw [pyDedupAux]
    by_cases hx : x ∈ seen
    · rw [if_pos hx, ih]
      constructor
      · rintro ⟨hm, hns⟩
        exact ⟨List.mem_cons_of_mem _ hm, hns⟩
      · rintro ⟨hm, hns⟩
        rcases List.mem_cons.mp hm with rfl | hm'
        · exact absurd hx hns
        · exact ⟨hm', hns⟩
    · rw [if_neg hx]
      constructor
      · intro hm
        rcases List.mem_cons.mp hm with rfl | hm'
        · exact ⟨List.mem_cons_self _ _, hx⟩
        · have h := (ih (x :: seen)).mp hm'
          exact ⟨List.mem_cons_of_mem _ h.1,
            fun hs => h.2 (List.mem_cons_of_mem _ hs)⟩
      · rintro ⟨hm, hns⟩
        rcases List.mem_cons.mp hm with rfl | hm'
        · exact List.mem_cons_self _ _
        · by_cases hax : a = x
          · subst hax; exact List.mem_cons_self _ _
          · exact List.mem_cons_of_mem _
              ((ih (x :: seen)).mpr ⟨hm', by simp [List.mem_cons, hax, hns]⟩)

theorem mem_pyDedup (l : List String) (a : String) : a ∈ pyDedup l ↔ a ∈ l := by
  rw [pyDedup, mem_pyDedupAux]
  simp

theorem nodup_pyDedupAux : ∀ (l seen : List String), (pyDedupAux seen l).Nodup := by
  intro l
  induction l with
  | nil => intro seen; simp [pyDedupAux]
  | cons x xs ih =>
    intro seen
    rw [pyDedupAux]
    by_cases hx : x ∈ seen
    · rw [if_pos hx]; exact ih seen
    · rw [if_neg hx]
      refine List.nodup_cons.mpr ⟨?_, ih _⟩
      intro hmem
      exact ((mem_pyDedupAux x xs (x :: seen)).mp hmem).2 (List.mem_cons_self _ _)

theorem nodup_pyDedup (l : List String) : (pyDedup l).Nodup :=
  nodup_pyDedupAux l []

theorem toFinset_pyDedup (l : List String) : (pyDedup l).toFinset = l.toFinset := by
  ext a
  simp [List.mem_toFinset, mem_pyDedup]

theorem length_pyDedup (l : List String) : (pyDedup l).length = l.toFinset.card := by
  rw [← toFinset_pyDedup, List.toFinset_card_of_nodup (nodup_pyDedup l)]

theorem length_filter_add_length_filter_not {α : Type} (p : α → Bool) (l : List α) :
    (l.filter p).length + (l.filter (fun a => !(p a))).length = l.length := by
  induction l with
  | nil => rfl
  | cons x xs ih =>
    by_cases h : p x <;> simp [List.filter_cons, h] <;> omega

/-! ## Lemmas about `validate_clause_ids` -/

theorem mem_validate_invalid_ids (graph : String → Bool) (ids : List String)
    (h : ids ≠ []) (a : String) :
    a ∈ (validate_clause_ids graph ids).invalid_ids ↔ a ∈ ids ∧ graph a = false := by
  rw [validate_clause_ids, if_neg (by simpa using h)]
  simp only [verify_clause_ids_batch, List.mem_map, List.mem_filter]
  constructor
  · rintro ⟨⟨i, b⟩, ⟨⟨j, hj, hje⟩, hb⟩, rfl⟩
    cases hje
    simp only [Bool.not_eq_true'] at hb
    exact ⟨(mem_pyDedup _ _).mp hj, hb⟩
  · rintro ⟨ha, hga⟩
    exact ⟨(a, graph a), ⟨⟨a, (mem_pyDedup _ _).mpr ha, rfl⟩, by simp [hga]⟩, rfl⟩

theorem mem_validate_valid_ids (graph : String → Bool) (ids : List String)
    (h : ids ≠ []) (a : String) :
    a ∈ (validate_clause_ids graph ids).valid_ids ↔ a ∈ ids ∧ graph a = true := by
  rw [validate_clause_ids, if_neg (by simpa using h)]
  simp only [verify_clause_ids_batch, List.mem_map, List.mem_filter]
  constructor
  · rintro ⟨⟨i, b⟩, ⟨⟨j, hj, hje⟩, hb⟩, rfl⟩
    cases hje
    exact ⟨(mem_pyDedup _ _).mp hj, hb⟩
  · rintro ⟨ha, hga⟩
    exact ⟨(a, graph a), ⟨⟨a, (mem_pyDedup _ _).mpr ha, rfl⟩, hga⟩, rfl⟩

theorem validate_valid_iff (graph : String → Bool) (ids : List String)
    (h : ids ≠ []) :
    (validate_clause_ids graph ids).valid = true ↔ ∀ a ∈ ids, graph a = true := by
  have hinv := mem_validate_invalid_ids graph ids h
  have hempty : (validate_clause_ids graph ids).invalid_ids = [] ↔
      ∀ a ∈ ids, graph a = true := by
    rw [List.eq_nil_iff_forall_not_mem]
    constructor
    · intro hno a ha
      by_contra hga
      exact hno a ((hinv a).mpr ⟨ha, by simpa using hga⟩)
    · intro hall a hmem
      have hma := (hinv a).mp hmem
      simp [hall a hma.1] at hma
  rw [← hempty]
  rw [validate_clause_ids, if_neg (by simpa using h)]
  simp [List.length_eq_zero]

/-! ## Claim C1 -/

/-- C1: for every non-empty list of clause IDs, `validate_clause_ids`
returns `valid = true` iff every ID exists as a `Clause` node in the
graph; `invalid_ids` holds exactly the input IDs that do not exist and
`valid_ids` exactly those that do; `total_checked` is the input length;
and `validation_rate` is `len(valid_ids)` divided by the input length. -/
theorem claim_C1_validate_clause_ids (graph : String → Bool) (ids : List String)
    (h : ids ≠ []) :
    ((validate_clause_ids graph ids).valid = true ↔ ∀ a ∈ ids, graph a = true) ∧
    (∀ a, a ∈ (validate_clause_ids graph ids).invalid_ids ↔
      a ∈ ids ∧ graph a = false) ∧
    (∀ a, a ∈ (validate_clause_ids graph ids).valid_ids ↔
      a ∈ ids ∧ graph a = true) ∧
    (validate_clause_ids graph ids).total_checked = some ids.length ∧
    (validate_clause_ids graph ids).validation_rate =
      some (((validate_clause_ids graph ids).valid_ids.length : ℚ) /
        (ids.length : ℚ)) := by
  refine ⟨validate_valid_iff graph ids h, mem_validate_invalid_ids graph ids h,
    mem_validate_valid_ids graph ids h, ?_, ?_⟩ <;>
  · rw [validate_clause_ids, if_neg (by simpa using h)]

/-- Witness for C1: concrete check on the graph holding only clause
`"A"` and the input `["A", "B"]`. -/
theorem claim_C1_validate_clause_ids_witness :
    (["A", "B"] : List String) ≠ [] ∧
    (validate_clause_ids (fun s => s == "A") ["A", "B"]).total_checked = some 2 :=
  ⟨by decide,
    (claim_C1_validate_clause_ids (fun s => s == "A") ["A", "B"] (by decide)).2.2.2.1⟩

/-! ## Claim C10 -/

/-- C10: with duplicate input IDs the existence map is keyed by distinct
IDs, so `len(valid_ids) + len(invalid_ids)` equals the number of distinct
input IDs rather than `total_checked`; `valid = true` does not force
`validation_rate = 1.0` (the list `["A", "A"]` over a graph holding `"A"`
yields `valid = true` with rate `1/2`); and on the empty input the result
dict has only the keys `valid`, `invalid_ids`, `valid_ids`. -/
theorem claim_C10_duplicate_and_empty_input :
    (∀ (graph : String → Bool) (ids : List String),
      (validate_clause_ids graph ids).valid_ids.length +
        (validate_clause_ids graph ids).invalid_ids.length = ids.toFinset.card) ∧
    ((validate_clause_ids (fun s => s == "A") ["A", "A"]).valid = true ∧
      (validate_clause_ids (fun s => s == "A") ["A", "A"]).total_checked = some 2 ∧
      (validate_clause_ids (fun s => s == "A") ["A", "A"]).validation_rate =
        some (1/2 : ℚ)) ∧
    (∀ graph : String → Bool, validate_clause_ids graph [] =
      { valid := true, invalid_ids := [], valid_ids := [],
        total_checked := none, validation_rate := none }) := by
  refine ⟨?_, ⟨by decide, by decide, ?_⟩, fun graph => rfl⟩
  · intro graph ids
    by_cases h : ids = []
    · subst h; simp [validate_clause_ids]
    · rw [validate_clause_ids, if_neg (by simpa using h)]
      simp only [List.length_map]
      rw [length_filter_add_length_filter_not (fun p : String × Bool => p.2)
        (verify_clause_ids_batch graph ids)]
      simp [verify_clause_ids_batch, length_pyDedup]
  · have hd : verify_clause_ids_batch (fun s => s == "A") ["A", "A"] =
        [("A", true)] := by decide
    rw [validate_clause_ids, if_neg (by decide), hd]
    norm_num

/-! ## Claim C2 -/

theorem validate_placeholders_valid_iff (original customized : String) :
    (validate_placeholders original customized).valid = true ↔
      extractPlaceholders original ⊆ extractPlaceholders customized := by
  show ((extractPlaceholders original \ extractPlaceholders customized).card == 0) =
    true ↔ _
  simp [Finset.card_eq_zero, Finset.sdiff_eq_empty_iff_subset]

/-- C2: `validate_placeholders` is valid iff every placeholder of the
original text (a match of the pattern on `[A-Z_0-9]+` between double
braces) also occurs in the customized text, equivalently iff the missing
set is empty; placeholders only in the customized text land in
`new_placeholders` without affecting validity; and the preservation rate
is the intersection size over the original set size, `1` when the
original has no placeholders. -/
theorem claim_C2_validate_placeholders (original customized : String) :
    ((validate_placeholders original customized).valid = true ↔
      extractPlaceholders original ⊆ extractPlaceholders customized) ∧
    ((validate_placeholders original customized).valid = true ↔
      (validate_placeholders original customized).missing_placeholders = ∅) ∧
    (validate_placeholders original customized).new_placeholders =
      extractPlaceholders customized \ extractPlaceholders original ∧
    (validate_placeholders original customized).preservation_rate =
      (if extractPlaceholders original = ∅ then 1
       else ((extractPlaceholders original ∩
           extractPlaceholders customized).card : ℚ) /
         ((extractPlaceholders original).card : ℚ)) := by
  refine ⟨validate_placeholders_valid_iff original customized, ?_, rfl, rfl⟩
  · show ((extractPlaceholders original \ extractPlaceholders customized).card == 0) =
        true ↔
      (extractPlaceholders original \ extractPlaceholders customized) = ∅
    simp [Finset.card_eq_zero]

/-! ## Claim C3 -/

theorem riskEntry_none_iff (graph_risks : List GraphClauseRisk) (e : LLMClauseRisk) :
    (match graphRiskLookup graph_risks e.clause_id with
     | some graph_level =>
       if e.risk_level = some graph_level then none
       else some { clause_id := e.clause_id, llm_risk := e.risk_level,
                   graph_risk := graph_level }
     | none => (none : Option RiskMismatch)) = none ↔
    ∀ q : ℚ, graphRiskLookup graph_risks e.clause_id = some q →
      e.risk_level = some q := by
  cases hlook : graphRiskLookup graph_risks e.clause_id with
  | none => simp
  | some q =>
    constructor
    · intro h q' hq'
      injection hq' with hqe
      subst hqe
      by_cases hr : e.risk_level = some q
      · exact hr
      · simp [hr] at h
    · intro hall
      simp [hall q rfl]

theorem riskEntry_some (graph_risks : List GraphClauseRisk) (e : LLMClauseRisk)
    (m : RiskMismatch)
    (h : (match graphRiskLookup graph_risks e.clause_id with
     | some graph_level =>
       if e.risk_level = some graph_level then none
       else some { clause_id := e.clause_id, llm_risk := e.risk_level,
                   graph_risk := graph_level }
     | none => (none : Option RiskMismatch)) = some m) :
    graphRiskLookup graph_risks m.clause_id = some m.graph_risk ∧
      m.llm_risk ≠ some m.graph_risk := by
  cases hlook : graphRiskLookup graph_risks e.clause_id with
  | none => rw [hlook] at h; simp at h
  | some q =>
    rw [hlook] at h
    by_cases hr : e.risk_level = some q
    · simp [hr] at h
    · simp [hr] at h
      subst h
      exact ⟨hlook, hr⟩

/-- C3: `validate_risk_scores` is valid iff every LLM risk entry whose
clause id is found in the graph risk data carries the graph's risk level
for that id; entries with an absent clause id are never mismatches; and
the accuracy rate is `(len(llm) - len(mismatches)) / len(llm)`, `1` when
the LLM list is empty. -/
theorem claim_C3_validate_risk_scores (llm_risks : List LLMClauseRisk)
    (graph_risks : List GraphClauseRisk) :
    ((validate_risk_scores llm_risks graph_risks).valid = true ↔
      ∀ e ∈ llm_risks, ∀ q : ℚ,
        graphRiskLookup graph_risks e.clause_id = some q → e.risk_level = some q) ∧
    (∀ m ∈ (validate_risk_scores llm_risks graph_risks).mismatches,
      graphRiskLookup graph_risks m.clause_id = some m.graph_risk ∧
        m.llm_risk ≠ some m.graph_risk) ∧
    (validate_risk_scores llm_risks graph_risks).checked_count = llm_risks.length ∧
    (validate_risk_scores llm_risks graph_risks).accuracy_rate =
      (if llm_risks = [] then 1
       else ((llm_risks.length : ℚ) -
           ((validate_risk_scores llm_risks graph_risks).mismatches.length : ℚ)) /
         (llm_risks.length : ℚ)) := by
  have hmis : (validate_risk_scores llm_risks graph_risks).mismatches =
      llm_risks.filterMap (fun e =>
        match graphRiskLookup graph_risks e.clause_id with
        | some graph_level =>
          if e.risk_level = some graph_level then none
          else some { clause_id := e.clause_id, llm_risk := e.risk_level,
                      graph_risk := graph_level }
        | none => none) := rfl
  have hval : (validate_risk_scores llm_risks graph_risks).valid =
      (((validate_risk_scores llm_risks graph_risks).mismatches.length) == 0) := rfl
  have hrate : (validate_risk_scores llm_risks graph_risks).accuracy_rate =
      (if llm_risks.isEmpty then 1
       else ((llm_risks.length : ℚ) -
           ((validate_risk_scores llm_risks graph_risks).mismatches.length : ℚ)) /
         (llm_risks.length : ℚ)) := rfl
  refine ⟨?_, ?_, rfl, ?_⟩
  · rw [hval]
    simp only [beq_iff_eq, List.length_eq_zero, hmis, List.filterMap_eq_nil_iff]
    refine forall_congr' fun e => imp_congr_right fun he => ?_
    exact riskEntry_none_iff graph_risks e
  · intro m hm
    rw [hmis, List.mem_filterMap] at hm
    obtain ⟨e, _, hfe⟩ := hm
    exact riskEntry_some graph_risks e m hfe
  · rw [hrate]
    rcases eq_or_ne llm_risks [] with h | h
    · subst h; rfl
    · rw [if_neg h, if_neg (by simpa [List.isEmpty_iff] using h)]

/-! ## Claim C4 -/

theorem recGrounded_iff (ctx : RecGraphContext) (r : RecommendationItem) :
    recGrounded ctx r = true ↔
      (∃ a ∈ ctx.alternatives,
        a.recommended_clause_id = r.recommended_clause_id.getD "") ∨
      (∃ q ∈ ctx.requires, q.required_clause_type = r.clause_type.getD "") := by
  unfold recGrounded
  simp [List.mem_toFinset, List.mem_map]

/-- C4: `validate_recommendations` classifies a recommendation as
grounded iff its recommended clause id is among the alternatives'
recommended ids or its clause type is among the required clause types;
the result is valid iff the clause-id validation succeeds and no
recommendation is ungrounded; and the grounding rate is the grounded
count over the total, `1` when the list is empty. -/
theorem claim_C4_validate_recommendations (graph : String → Bool)
    (recs : List RecommendationItem) (ctx : RecGraphContext) :
    (∀ r ∈ recs,
      (r ∉ (validate_recommendations graph recs ctx).ungrounded_recommendations ↔
        (∃ a ∈ ctx.alternatives,
          a.recommended_clause_id = r.recommended_clause_id.getD "") ∨
        (∃ q ∈ ctx.requires, q.required_clause_type = r.clause_type.getD ""))) ∧
    ((validate_recommendations graph recs ctx).valid = true ↔
      ((validate_recommendations graph recs ctx).id_validation.valid = true ∧
        (validate_recommendations graph recs ctx).ungrounded_recommendations = [])) ∧
    (validate_recommendations graph recs ctx).grounded_count =
      (recs.filter (fun r => recGrounded ctx r)).length ∧
    (validate_recommendations graph recs ctx).grounding_rate =
      (if recs = [] then 1
       else ((validate_recommendations graph recs ctx).grounded_count : ℚ) /
         (recs.length : ℚ)) := by
  have hval : (validate_recommendations graph recs ctx).valid =
      ((validate_recommendations graph recs ctx).id_validation.valid &&
        ((RecValidation.ungrounded_recommendations
          (validate_recommendations graph recs ctx)).length == 0)) := rfl
  have hrate : (validate_recommendations graph recs ctx).grounding_rate =
      (if recs.isEmpty then 1
       else ((validate_recommendations graph recs ctx).grounded_count : ℚ) /
         (recs.length : ℚ)) := rfl
  refine ⟨?_, ?_, rfl, ?_⟩
  · intro r hr
    rw [← recGrounded_iff]
    show r ∉ recs.filter (fun x => !(recGrounded ctx x)) ↔ _
    simp only [List.mem_filter, Bool.not_eq_true', not_and]
    constructor
    · intro hmem
      have := hmem hr
      simpa using this
    · intro hg _
      simp [hg]
  · rw [hval]
    simp [List.length_eq_zero]
  · rw [hrate]
    rcases eq_or_ne recs [] with h | h
    · subst h; rfl
    · rw [if_neg h, if_neg (by simpa [List.isEmpty_iff] using h)]

/-! ## Claim C5 -/

theorem citationGrounded_iff (clause_data : List QAClause) (c : Citation) :
    citationGrounded clause_data c = true ↔
      ∃ s, c.clause_id = some s ∧ ∃ d ∈ clause_data, d.clause_id = s := by
  unfold citationGrounded
  cases hc : c.clause_id with
  | none => simp
  | some s => simp [List.mem_toFinset, List.mem_map]

/-- C5: `validate_citations` splits the citations into those whose clause
id occurs among the clause ids of the clause context and the rest; the
result is valid iff no citation is invalid; and the citation rate is the
number of valid citations over the total, `1` when the list is empty. -/
theorem claim_C5_validate_citations (citations : List Citation)
    (clause_data : List QAClause) :
    (∀ c, c ∈ (validate_citations citations clause_data).valid_citations ↔
      c ∈ citations ∧
        ∃ s, c.clause_id = some s ∧ ∃ d ∈ clause_data, d.clause_id = s) ∧
    (∀ c, c ∈ (validate_citations citations clause_data).invalid_citations ↔
      c ∈ citations ∧
        ¬∃ s, c.clause_id = some s ∧ ∃ d ∈ clause_data, d.clause_id = s) ∧
    (validate_citations citations clause_data).valid_citations.length +
      (validate_citations citations clause_data).invalid_citations.length =
      citations.length ∧
    ((validate_citations citations clause_data).valid = true ↔
      (validate_citations citations clause_data).invalid_citations = []) ∧
    (validate_citations citations clause_data).citation_rate =
      (if citations = [] then 1
       else ((validate_citations citations clause_data).valid_citations.length : ℚ) /
         (citations.length : ℚ)) := by
  have hval : (validate_citations citations clause_data).valid =
      (((validate_citations citations clause_data).invalid_citations.length) == 0) :=
    rfl
  have hrate : (validate_citations citations clause_data).citation_rate =
      (if citations.isEmpty then 1
       else ((validate_citations citations clause_data).valid_citations.length : ℚ) /
         (citations.length : ℚ)) := rfl
  refine ⟨?_, ?_, ?_, ?_, ?_⟩
  · intro c
    show c ∈ citations.filter _ ↔ _
    simp [List.mem_filter, citationGrounded_iff]
  · intro c
    constructor
    · intro hc
      have hm := List.mem_filter.mp hc
      refine ⟨hm.1, ?_⟩
      intro hex
      have hg := (citationGrounded_iff clause_data c).mpr hex
      simp [hg] at hm
    · rintro ⟨hc, hnex⟩
      refine List.mem_filter.mpr ⟨hc, ?_⟩
      have hg : citationGrounded clause_data c = false := by
        rw [Bool.eq_false_iff]
        intro hgt
        exact hnex ((citationGrounded_iff clause_data c).mp hgt)
      simp [hg]
  · exact length_filter_add_length_filter_not
      (fun c => citationGrounded clause_data c) citations
  · rw [hval]
    simp [List.length_eq_zero]
  · rw [hrate]
    rcases eq_or_ne citations [] with h | h
    · subst h; rfl
    · rw [if_neg h, if_neg (by simpa [List.isEmpty_iff] using h)]

/-! ## Claim C7 -/

theorem customize_clause_of_valid (record : ClauseRecord)
    (ctx : CustomizationContext) (out : CustLLMOutput)
    (h : (validate_placeholders (effectiveOriginalText record ctx.clause)
      (out.customized_text.getD "")).valid = true) :
    customize_clause (some record) (some ctx) true (.ok out) =
      .ok { clause_id := record.clause_id,
            clause_type := ctx.clause.clause_type,
            original_text := effectiveOriginalText record ctx.clause,
            customized_text := out.customized_text.getD "",
            changes_summary := out.changes_summary.getD "",
            risk_impact := out.risk_impact.getD "same",
            risk_explanation := out.risk_explanation.getD "",
            preserved_placeholders :=
              (validate_placeholders (effectiveOriginalText record ctx.clause)
                (out.customized_text.getD "")).preserved_placeholders,
            legal_notes := out.legal_notes,
            validation :=
              { placeholders_valid :=
                  (validate_placeholders (effectiveOriginalText record ctx.clause)
                    (out.customized_text.getD "")).valid,
                preservation_rate :=
                  (validate_placeholders (effectiveOriginalText record ctx.clause)
                    (out.customized_text.getD "")).preservation_rate,
                all_placeholders :=
                  (validate_placeholders (effectiveOriginalText record ctx.clause)
                    (out.customized_text.getD "")).original_placeholders } } := by
  unfold customize_clause
  simp [h]

theorem customize_clause_of_invalid (record : ClauseRecord)
    (ctx : CustomizationContext) (out : CustLLMOutput)
    (h : (validate_placeholders (effectiveOriginalText record ctx.clause)
      (out.customized_text.getD "")).valid = false) :
    customize_clause (some record) (some ctx) true (.ok out) =
      .error { status := 422,
               detail := "Customization failed validation: missing placeholders" } := by
  unfold customize_clause
  simp [h]

/-- C7: on the path where the clause record, the graph context and the
LLM all deliver, the customize endpoint fails with HTTP 422 exactly when
some placeholder of the effective original text is missing from the LLM's
customized text; on success the response's `preserved_placeholders`,
`preservation_rate` and `placeholders_valid` are the ones computed by
that same placeholder validation. -/
theorem claim_C7_customize_placeholder_gate (record : ClauseRecord)
    (ctx : CustomizationContext) (out : CustLLMOutput) :
    ((∃ d, customize_clause (some record) (some ctx) true (.ok out) =
        .error { status := 422, detail := d }) ↔
      ¬ extractPlaceholders (effectiveOriginalText record ctx.clause) ⊆
        extractPlaceholders (out.customized_text.getD "")) ∧
    (∀ resp, customize_clause (some record) (some ctx) true (.ok out) = .ok resp →
      resp.preserved_placeholders =
        (validate_placeholders (effectiveOriginalText record ctx.clause)
          (out.customized_text.getD "")).preserved_placeholders ∧
      resp.validation.preservation_rate =
        (validate_placeholders (effectiveOriginalText record ctx.clause)
          (out.customized_text.getD "")).preservation_rate ∧
      resp.validation.placeholders_valid =
        (validate_placeholders (effectiveOriginalText record ctx.clause)
          (out.customized_text.getD "")).valid) := by
  by_cases hv : (validate_placeholders (effectiveOriginalText record ctx.clause)
      (out.customized_text.getD "")).valid = true
  · have heq := customize_clause_of_valid record ctx out hv
    refine ⟨⟨?_, ?_⟩, ?_⟩
    · rintro ⟨d, hd⟩
      rw [heq] at hd
      cases hd
    · intro hsub
      exact absurd ((validate_placeholders_valid_iff _ _).mp hv) hsub
    · intro resp hresp
      rw [heq] at hresp
      injection hresp with h'
      subst h'
      exact ⟨rfl, rfl, rfl⟩
  · have hvf : (validate_placeholders (effectiveOriginalText record ctx.clause)
        (out.customized_text.getD "")).valid = false := Bool.eq_false_iff.mpr hv
    have heq := customize_clause_of_invalid record ctx out hvf
    refine ⟨⟨?_, ?_⟩, ?_⟩
    · intro _ hsub
      exact hv ((validate_placeholders_valid_iff _ _).mpr hsub)
    · intro _
      exact ⟨_, heq⟩
    · intro resp hresp
      rw [heq] at hresp
      cases hresp

/-! ## Claim C6 -/

/-- C6: when the LLM call raises, both endpoints still answer 200.  The
recommendations endpoint falls back to the raw graph recommendations (a
`variant_upgrade` per alternative, a `missing_clause` per missing
requirement, `llm_fallback` flagged), and the risk endpoint returns the
response built by `_build_raw_risk_response`; neither propagates the LLM
error. -/
theorem claim_C6_llm_failure_fallback (graph : String → Bool) (c : ContractInfo)
    (active : List ActiveClause) (rec_ctx : RecGraphContext)
    (risk_ctx : RiskGraphContext) (e1 e2 : String) (cid : String) (now : Nat)
    (hactive : active ≠ [])
    (hctx : rec_ctx.alternatives ≠ [] ∨ rec_ctx.requires ≠ [] ∨
      rec_ctx.optional_gaps ≠ []) :
    get_recommendations graph (some c) active rec_ctx true (.error e1) cid now =
      .ok { contract_id := cid,
            recommendations := rec_ctx.alternatives.map altToRawRec ++
              rec_ctx.requires.map reqToRawRec,
            summary := "Recommendations from knowledge graph (LLM unavailable: " ++
              e1.take 100 ++ ").",
            total_recommendations := (rec_ctx.alternatives.map altToRawRec ++
              rec_ctx.requires.map reqToRawRec).length,
            grounding_validation :=
              { valid := true, grounding_rate := 1, llm_fallback := some true,
                filtered_hallucinations := none },
            generated_at := now } ∧
    get_risk_analysis (some c) active risk_ctx true (.error e2) cid now =
      .ok (build_raw_risk_response cid
        (compute_risk_score risk_ctx.clause_risks risk_ctx.conflicts)
        (get_risk_label (compute_risk_score risk_ctx.clause_risks risk_ctx.conflicts))
        risk_ctx now) := by
  have hae : ¬ active.isEmpty = true := by simpa [List.isEmpty_iff] using hactive
  constructor
  · have hcond : ¬ (rec_ctx.alternatives.isEmpty && rec_ctx.requires.isEmpty &&
        rec_ctx.optional_gaps.isEmpty) = true := by
      rcases hctx with h | h | h <;> simp [List.isEmpty_iff, h]
    unfold get_recommendations
    rw [if_neg hae, if_neg hcond, if_neg (by decide)]
  · unfold get_risk_analysis
    rw [if_neg hae, if_neg (by decide)]

/-- Witness for C6: a contract with one active clause, a recommendation
context holding one alternative, and an LLM that raises. -/
theorem claim_C6_llm_failure_fallback_witness :
    [sampleActive] ≠ [] ∧
    (sampleRecCtx.alternatives ≠ [] ∨ sampleRecCtx.requires ≠ [] ∨
      sampleRecCtx.optional_gaps ≠ []) ∧
    get_risk_analysis (some sampleContract) [sampleActive] emptyRiskCtx
        true (.error "boom") "C-1" 0 =
      .ok (build_raw_risk_response "C-1"
        (compute_risk_score emptyRiskCtx.clause_risks emptyRiskCtx.conflicts)
        (get_risk_label
          (compute_risk_score emptyRiskCtx.clause_risks emptyRiskCtx.conflicts))
        emptyRiskCtx 0) :=
  ⟨by decide, Or.inl (by decide),
    (claim_C6_llm_failure_fallback (fun _ => true) sampleContract [sampleActive]
      sampleRecCtx emptyRiskCtx "boom" "boom" "C-1" 0 (by decide)
      (Or.inl (by decide))).2⟩

/-! ## Claim C8 -/

theorem risk_foldl_eq (l : List GraphClauseRisk) (a b : ℚ) :
    l.foldl (fun (p : ℚ × ℚ) cr =>
      (p.1 + cr.risk_level * clauseWeight cr, p.2 + clauseWeight cr)) (a, b) =
    (a + (l.map (fun cr => cr.risk_level * clauseWeight cr)).sum,
     b + (l.map clauseWeight).sum) := by
  induction l generalizing a b with
  | nil => simp
  | cons x xs ih =>
    simp only [List.foldl_cons, List.map_cons, List.sum_cons, ih, Prod.mk.injEq]
    constructor <;> ring

theorem one_le_clauseWeight (cr : GraphClauseRisk) : 1 ≤ clauseWeight cr := by
  cases h : cr.importance_level with
  | none => simp [clauseWeight, h]
  | some s =>
    simp only [clauseWeight, h]
    unfold importanceWeight
    split_ifs <;> norm_num

theorem weights_sum_pos (l : List GraphClauseRisk) (h : l ≠ []) :
    0 < (l.map clauseWeight).sum := by
  cases l with
  | nil => exact absurd rfl h
  | cons x xs =>
    simp only [List.map_cons, List.sum_cons]
    have h1 := one_le_clauseWeight x
    have h2 : 0 ≤ (xs.map clauseWeight).sum := by
      apply List.sum_nonneg
      intro q hq
      obtain ⟨cr, _, rfl⟩ := List.mem_map.mp hq
      linarith [one_le_clauseWeight cr]
    linarith

/-- The score `_compute_risk_score` returns on a non-empty clause-risk
list: importance-weighted average of the risk levels, plus the conflict
penalty, rounded to one decimal, capped at `10`. -/
theorem compute_risk_score_formula (clause_risks : List GraphClauseRisk)
    (conflicts : List GraphConflict) (h : clause_risks ≠ []) :
    compute_risk_score clause_risks conflicts =
      min 10 (round1
        (((clause_risks.map (fun cr => cr.risk_level * clauseWeight cr)).sum /
          (clause_risks.map clauseWeight).sum) +
         (conflicts.map (fun cf => severityPenalty cf.severity)).sum)) := by
  unfold compute_risk_score
  rw [if_neg (by simpa [List.isEmpty_iff] using h)]
  rw [risk_foldl_eq]
  simp only [zero_add]
  rw [if_pos (weights_sum_pos clause_risks h)]

theorem correctRisk_grounded (graph_risks : List GraphClauseRisk)
    (e : LLMClauseRisk) (q : ℚ)
    (hq : graphRiskLookup graph_risks (correctRisk graph_risks e).clause_id =
      some q) :
    (correctRisk graph_risks e).risk_level = some q := by
  cases hlook : graphRiskLookup graph_risks e.clause_id with
  | some g =>
    have hce : correctRisk graph_risks e = { e with risk_level := some g } := by
      unfold correctRisk; rw [hlook]
    rw [hce] at hq ⊢
    simp only at hq
    rw [hlook] at hq
    simpa using hq
  | none =>
    have hce : correctRisk graph_risks e = e := by
      unfold correctRisk; rw [hlook]
    rw [hce] at hq
    rw [hlook] at hq
    cases hq

/-- C8: on the LLM path of the risk endpoint, every clause risk of the
response whose clause id appears in the graph risk data carries the
graph's risk level, and the returned overall score is the graph-computed
`_compute_risk_score` value (weighted average plus conflict penalty,
rounded to one decimal, capped at `10`) regardless of the score the LLM
proposed. -/
theorem claim_C8_risk_llm_path (c : ContractInfo) (active : List ActiveClause)
    (risk_ctx : RiskGraphContext) (out : LLMRiskOutput) (cid : String) (now : Nat)
    (hactive : active ≠ []) (hcr : risk_ctx.clause_risks ≠ []) :
    ∃ resp,
      get_risk_analysis (some c) active risk_ctx true (.ok out) cid now =
        .ok resp ∧
      resp.overall_risk_score =
        compute_risk_score risk_ctx.clause_risks risk_ctx.conflicts ∧
      (∀ r ∈ resp.clause_risks, ∀ q : ℚ,
        graphRiskLookup risk_ctx.clause_risks r.clause_id = some q →
          r.risk_level = some q) ∧
      compute_risk_score risk_ctx.clause_risks risk_ctx.conflicts =
        min 10 (round1
          (((risk_ctx.clause_risks.map
              (fun cr => cr.risk_level * clauseWeight cr)).sum /
            (risk_ctx.clause_risks.map clauseWeight).sum) +
           (risk_ctx.conflicts.map (fun cf => severityPenalty cf.severity)).sum)) := by
  have heq : get_risk_analysis (some c) active risk_ctx true (.ok out) cid now =
      .ok { contract_id := cid,
            overall_risk_score :=
              compute_risk_score risk_ctx.clause_risks risk_ctx.conflicts,
            overall_risk_label :=
              get_risk_label
                (compute_risk_score risk_ctx.clause_risks risk_ctx.conflicts),
            summary := out.summary,
            clause_risks := out.clause_risks.map (correctRisk risk_ctx.clause_risks),
            conflicts := out.conflicts,
            gaps := out.gaps,
            action_items := out.action_items,
            validation :=
              { risk_scores_from_graph := true,
                overall_score_formula := some "weighted average + conflict penalty",
                risk_score_accuracy := some
                  (validate_risk_scores out.clause_risks
                    risk_ctx.clause_risks).accuracy_rate,
                scores_corrected :=
                  some (validate_risk_scores out.clause_risks
                    risk_ctx.clause_risks).mismatches.length,
                llm_used := none, note := none },
            generated_at := now } := by
    unfold get_risk_analysis
    rw [if_neg (by simpa [List.isEmpty_iff] using hactive), if_neg (by decide)]
  refine ⟨_, heq, rfl, ?_, compute_risk_score_formula _ _ hcr⟩
  intro r hr q hq
  obtain ⟨e, _, rfl⟩ := List.mem_map.mp hr
  exact correctRisk_grounded risk_ctx.clause_risks e q hq

/-- Witness for C8: one graph clause risk with level `8`, an LLM answer
claiming level `3` and overall score `2`. -/
theorem claim_C8_risk_llm_path_witness :
    [sampleActive] ≠ [] ∧ sampleRiskCtx.clause_risks ≠ [] ∧
    ∃ resp,
      get_risk_analysis (some sampleContract) [sampleActive] sampleRiskCtx true
          (.ok sampleLLMRiskOutput) "C-1" 0 = .ok resp ∧
      resp.overall_risk_score =
        compute_risk_score sampleRiskCtx.clause_risks sampleRiskCtx.conflicts ∧
      (∀ r ∈ resp.clause_risks, ∀ q : ℚ,
        graphRiskLookup sampleRiskCtx.clause_risks r.clause_id = some q →
          r.risk_level = some q) ∧
      compute_risk_score sampleRiskCtx.clause_risks sampleRiskCtx.conflicts =
        min 10 (round1
          (((sampleRiskCtx.clause_risks.map
              (fun cr => cr.risk_level * clauseWeight cr)).sum /
            (sampleRiskCtx.clause_risks.map clauseWeight).sum) +
           (sampleRiskCtx.conflicts.map
              (fun cf => severityPenalty cf.severity)).sum)) :=
  ⟨by decide, by decide,
    claim_C8_risk_llm_path sampleContract [sampleActive] sampleRiskCtx
      sampleLLMRiskOutput "C-1" 0 (by decide) (by decide)⟩

/-! ## Claim C9 -/

theorem filter_not_contains_ungrounded (ctx : RecGraphContext)
    (recs : List RecommendationItem) :
    recs.filter (fun r =>
      !((recs.filter (fun x => !(recGrounded ctx x))).contains r)) =
    recs.filter (fun r => recGrounded ctx r) := by
  apply List.filter_congr
  intro r hr
  by_cases hg : recGrounded ctx r = true
  · simp [hg, List.elem_iff, List.mem_filter]
  · simp [hg, List.elem_iff, List.mem_filter, hr, Bool.eq_false_iff.mpr hg]

/-- C9: when the grounding validation of the LLM recommendations is not
valid, the endpoint drops exactly the ungrounded recommendations, so
every returned recommendation is grounded in the graph context (its
recommended clause id comes from the alternatives or its clause type from
the requirements) and `total_recommendations` counts the returned list. -/
theorem claim_C9_ungrounded_filtered (graph : String → Bool) (c : ContractInfo)
    (active : List ActiveClause) (rec_ctx : RecGraphContext) (out : LLMRecOutput)
    (cid : String) (now : Nat)
    (hactive : active ≠ [])
    (hctx : rec_ctx.alternatives ≠ [] ∨ rec_ctx.requires ≠ [] ∨
      rec_ctx.optional_gaps ≠ [])
    (hinvalid :
      (validate_recommendations graph out.recommendations rec_ctx).valid = false) :
    ∃ resp,
      get_recommendations graph (some c) active rec_ctx true (.ok out) cid now =
        .ok resp ∧
      resp.recommendations =
        out.recommendations.filter (fun r => recGrounded rec_ctx r) ∧
      (∀ r ∈ resp.recommendations,
        (∃ a ∈ rec_ctx.alternatives,
          a.recommended_clause_id = r.recommended_clause_id.getD "") ∨
        (∃ t ∈ rec_ctx.requires,
          t.required_clause_type = r.clause_type.getD "")) ∧
      resp.total_recommendations = resp.recommendations.length := by
  have hae : ¬ active.isEmpty = true := by simpa [List.isEmpty_iff] using hactive
  have hcond : ¬ (rec_ctx.alternatives.isEmpty && rec_ctx.requires.isEmpty &&
      rec_ctx.optional_gaps.isEmpty) = true := by
    rcases hctx with h | h | h <;> simp [List.isEmpty_iff, h]
  have heq : get_recommendations graph (some c) active rec_ctx true (.ok out)
      cid now =
      .ok { contract_id := cid,
            recommendations :=
              out.recommendations.filter (fun r =>
                !((RecValidation.ungrounded_recommendations
                    (validate_recommendations graph out.recommendations
                      rec_ctx)).contains r)),
            summary := out.summary,
            total_recommendations :=
              (out.recommendations.filter (fun r =>
                !((RecValidation.ungrounded_recommendations
                    (validate_recommendations graph out.recommendations
                      rec_ctx)).contains r))).length,
            grounding_validation :=
              { valid :=
                  (validate_recommendations graph out.recommendations rec_ctx).valid,
                grounding_rate :=
                  (validate_recommendations graph out.recommendations
                    rec_ctx).grounding_rate,
                llm_fallback := none,
                filtered_hallucinations :=
                  some (validate_recommendations graph out.recommendations
                    rec_ctx).ungrounded_count },
            generated_at := now } := by
    unfold get_recommendations
    rw [if_neg hae, if_neg hcond, if_neg (by decide)]
    simp [hinvalid]
  have hug : RecValidation.ungrounded_recommendations
      (validate_recommendations graph out.recommendations rec_ctx) =
      out.recommendations.filter (fun x => !(recGrounded rec_ctx x)) := rfl
  have hfilter : out.recommendations.filter (fun r =>
      !((RecValidation.ungrounded_recommendations
        (validate_recommendations graph out.recommendations rec_ctx)).contains r)) =
      out.recommendations.filter (fun r => recGrounded rec_ctx r) := by
    rw [hug]
    exact filter_not_contains_ungrounded rec_ctx out.recommendations
  refine ⟨_, heq, hfilter, ?_, rfl⟩
  intro r hr
  rw [hfilter] at hr
  have hg := (List.mem_filter.mp hr).2
  exact (recGrounded_iff rec_ctx r).mp hg

/-- Witness for C9: the LLM proposes one recommendation grounded in
nothing, over a context with one alternative; it is filtered out. -/
theorem claim_C9_ungrounded_filtered_witness :
    [sampleActive] ≠ [] ∧
    (sampleRecCtx.alternatives ≠ [] ∨ sampleRecCtx.requires ≠ [] ∨
      sampleRecCtx.optional_gaps ≠ []) ∧
    (validate_recommendations (fun _ => false)
      sampleLLMRecOutput.recommendations sampleRecCtx).valid = false ∧
    ∃ resp,
      get_recommendations (fun _ => false) (some sampleContract) [sampleActive]
          sampleRecCtx true (.ok sampleLLMRecOutput) "C-1" 0 = .ok resp ∧
      resp.recommendations =
        sampleLLMRecOutput.recommendations.filter
          (fun r => recGrounded sampleRecCtx r) ∧
      (∀ r ∈ resp.recommendations,
        (∃ a ∈ sampleRecCtx.alternatives,
          a.recommended_clause_id = r.recommended_clause_id.getD "") ∨
        (∃ t ∈ sampleRecCtx.requires,
          t.required_clause_type = r.clause_type.getD "")) ∧
      resp.total_recommendations = resp.recommendations.length :=
  ⟨by decide, Or.inl (by decide), by decide,
    claim_C9_ungrounded_filtered (fun _ => false) sampleContract [sampleActive]
      sampleRecCtx sampleLLMRecOutput "C-1" 0 (by decide) (Or.inl (by decide))
      (by decide)⟩

end LegalWiz
